import Mathlib

/-!
Shallow embedding of the geocoding form field component
(src/base/static/components/molecules/form-field-types/geocoding-field.tsx).

The component holds two pieces of visible state (`isGeocoding`,
`isWithGeocodingError`), a mount-lifetime ref (`isMounted`), and wires four
asynchronous code paths: a forward geocode (`doGeocode`, lines 75-118), a
reverse geocode effect on viewport change (lines 121-161), a 5000ms error
banner timer (lines 172-181), and an unmount cleanup (lines 183-187).

JavaScript numbers that flow through unchanged (coordinates, zoom, durations)
are modelled as `Int`; no claim depends on float semantics.  Each synchronous
body of the component is embedded as a script of primitive `Action`s in the
order the source executes them, so that statements about ordering (state is
set before a request is issued) and about emitted requests/events are direct.
-/

namespace GeocodingField

/-- Map viewport as read from shared state: current center coordinate. -/
structure MapViewport where
  latitude : Int
  longitude : Int
  deriving Repr, DecidableEq

/-- GeoJSON geometry of a feature: `geometry.coordinates` is an array;
the source reads indices 0 (longitude) and 1 (latitude). -/
structure Geometry where
  coordinates : List Int
  deriving Repr, DecidableEq

/-- One element of the provider response's `features` array.  `geometry` and
`place_name` may each be absent (undefined in JS). -/
structure Feature where
  geometry : Option Geometry
  place_name : Option String
  deriving Repr, DecidableEq

/-- Parsed JSON body of a geocoding response: the `features` key may be
absent altogether. -/
structure ResponseData where
  features : Option (List Feature)
  deriving Repr, DecidableEq

/-- Component-visible state: the two `useState` flags (lines 69-72) plus the
`isMounted` ref (line 73). -/
structure CState where
  isGeocoding : Bool
  isWithGeocodingError : Bool
  isMounted : Bool
  deriving Repr, DecidableEq

/-- Initial state: both flags false (lines 69-72), the mount ref true
(line 73). -/
def initialState : CState :=
  { isGeocoding := false, isWithGeocodingError := false, isMounted := true }

/-- Payload of the global `setMapViewport` event (lines 96-101).  Latitude and
longitude are `Option` because the source indexes `coordinates[1]` and
`coordinates[0]` without a bounds check (an out-of-range index is
`undefined` in JS). -/
structure SetMapViewportEvent where
  latitude : Option Int
  longitude : Option Int
  zoom : Int
  transitionDuration : Int
  deriving Repr, DecidableEq

/-- Primitive side effects the component's code performs, in source order. -/
inductive Action where
  | setIsGeocoding (b : Bool)
  | setIsWithGeocodingError (b : Bool)
  | fetch (url : String)
  | emitSetMapViewport (e : SetMapViewportEvent)
  | onChange (field : String) (newValue : String)
  deriving Repr, DecidableEq

/-- Effect of one action on component state.  `fetch`, the event emission and
the parent callback do not touch component state; no action touches the
mount ref. -/
def applyAction (s : CState) : Action → CState
  | .setIsGeocoding b => { s with isGeocoding := b }
  | .setIsWithGeocodingError b => { s with isWithGeocodingError := b }
  | .fetch _ => s
  | .emitSetMapViewport _ => s
  | .onChange _ _ => s

/-- Run a script of actions left to right. -/
def runActions (acts : List Action) (s : CState) : CState :=
  acts.foldl applyAction s

/-- URLs of the HTTP GET requests a script issues, in order. -/
def requestsOf (acts : List Action) : List String :=
  acts.filterMap fun a =>
    match a with
    | .fetch u => some u
    | _ => none

/-- The `setMapViewport` events a script emits, in order. -/
def emitsOf (acts : List Action) : List SetMapViewportEvent :=
  acts.filterMap fun a =>
    match a with
    | .emitSetMapViewport e => some e
    | _ => none

/-- The `onChange` callbacks a script performs, in order. -/
def onChangesOf (acts : List Action) : List (String × String) :=
  acts.filterMap fun a =>
    match a with
    | .onChange f v => some (f, v)
    | _ => none

/-- JavaScript truthiness of a possibly-absent string: absent (`undefined`)
and the empty string are falsy. -/
def strTruthy : Option String → Bool
  | none => false
  | some p => p != ""

/-- Whether an action is an HTTP request. -/
def isFetch : Action → Bool
  | .fetch _ => true
  | _ => false

/-- The part of a script that runs before its first HTTP request. -/
def prefixBeforeFetch (acts : List Action) : List Action :=
  acts.takeWhile (fun a => !isFetch a)

/-- One hexadecimal digit, uppercase, as produced by percent-encoding. -/
def hexDigit (n : Nat) : Char :=
  if n < 10 then Char.ofNat (48 + n) else Char.ofNat (55 + n)

/-- UTF-8 byte sequence of a character, as byte values. -/
def utf8Bytes (c : Char) : List Nat :=
  let n := c.toNat
  if n < 128 then [n]
  else if n < 2048 then [192 + n / 64, 128 + n % 64]
  else if n < 65536 then [224 + n / 4096, 128 + (n / 64) % 64, 128 + n % 64]
  else [240 + n / 262144, 128 + (n / 4096) % 64, 128 + (n / 64) % 64, 128 + n % 64]

/-- Percent-encoding of one byte: a percent sign and two uppercase hex
digits. -/
def percentEncodeByte (b : Nat) : String :=
  String.mk ['%', hexDigit (b / 16), hexDigit (b % 16)]

/-- Characters `encodeURIComponent` leaves unescaped: ASCII alphanumerics and
the marks listed by the ECMAScript specification. -/
def isURIUnescaped (c : Char) : Bool :=
  c.isAlphanum && c.toNat < 128 || "-_.!~*'()".contains c

/-- Model of JavaScript `encodeURIComponent` (used at line 80-82): unescaped
characters pass through, every other character is replaced by the
percent-encoding of its UTF-8 bytes. -/
def encodeURIComponent (s : String) : String :=
  String.join (s.toList.map fun c =>
    if isURIUnescaped c then String.singleton c
    else String.join ((utf8Bytes c).map percentEncodeByte))

/-- JavaScript `Array.prototype.join(",")` on an array of numbers, as applied
to `geocodeHint` and `geocodeBoundingBox` (lines 83-84). -/
def joinComma : List Int → String
  | [] => ""
  | [x] => toString x
  | x :: y :: rest => toString x ++ "," ++ joinComma (y :: rest)

/-- Forward geocode URL, built exactly as at lines 80-84: places endpoint with
the URL-encoded query, the access token, then a proximity parameter when a
geocode hint is configured and a bbox parameter when a bounding box is
configured (JS truthiness on the two config values is modelled by
`Option`). -/
def forwardUrl (token value : String) (geocodeHint geocodeBoundingBox : Option (List Int)) : String :=
  "https://api.mapbox.com/geocoding/v5/mapbox.places/" ++ encodeURIComponent value ++
    ".json?access_token=" ++ token ++
    (match geocodeHint with
     | some h => "&proximity=" ++ joinComma h
     | none => "") ++
    (match geocodeBoundingBox with
     | some b => "&bbox=" ++ joinComma b
     | none => "")

/-- Reverse geocode URL, built exactly as at lines 130-132:
longitude,latitude then the access token only. -/
def reverseUrl (token : String) (vp : MapViewport) : String :=
  "https://api.mapbox.com/geocoding/v5/mapbox.places/" ++ toString vp.longitude ++
    "," ++ toString vp.latitude ++ ".json?access_token=" ++ token

/-- Synchronous body of `doGeocode` (lines 75-87): set the loading flag, clear
the error flag, then issue one GET for the forward URL. -/
def doGeocodeScript (token value : String) (geocodeHint geocodeBoundingBox : Option (List Int)) : List Action :=
  [ .setIsGeocoding true,
    .setIsWithGeocodingError false,
    .fetch (forwardUrl token value geocodeHint geocodeBoundingBox) ]

/-- The JS access chain `data.features && data.features[0] &&
data.features[0].geometry` (lines 89-90): the geometry of the first feature
when every link is present (objects and non-empty arrays are truthy). -/
def responseGeometry (d : ResponseData) : Option Geometry :=
  match d.features with
  | none => none
  | some fs =>
    match fs.head? with
    | none => none
    | some f => f.geometry

/-- The JS access chain `data.features && data.features[0] &&
data.features[0].place_name` (lines 137-139). -/
def responsePlaceName (d : ResponseData) : Option String :=
  match d.features with
  | none => none
  | some fs =>
    match fs.head? with
    | none => none
    | some f => f.place_name

/-- Success continuation of the forward geocode (lines 88-106): with a truthy
geometry and the mount ref still true, clear both flags and emit one
`setMapViewport` event with latitude `coordinates[1]`, longitude
`coordinates[0]`, zoom 14, transition duration 1000; with no truthy geometry
but still mounted, clear loading and set the error flag; unmounted, do
nothing. -/
def forwardThenScript (d : ResponseData) (s : CState) : List Action :=
  match responseGeometry d with
  | some g =>
    if s.isMounted then
      [ .setIsGeocoding false,
        .setIsWithGeocodingError false,
        .emitSetMapViewport
          { latitude := g.coordinates.get? 1,
            longitude := g.coordinates.get? 0,
            zoom := 14,
            transitionDuration := 1000 } ]
    else []
  | none =>
    if s.isMounted then
      [ .setIsGeocoding false, .setIsWithGeocodingError true ]
    else []

/-- Failure continuation of the forward geocode (lines 107-115): when still
mounted, clear loading and set the error flag; otherwise do nothing. -/
def forwardCatchScript (s : CState) : List Action :=
  if s.isMounted then
    [ .setIsGeocoding false, .setIsWithGeocodingError true ]
  else []

/-- Success continuation of the reverse geocode (lines 136-148): with a truthy
place name (present and non-empty, since the empty string is falsy in JS) and
still mounted, clear both flags and call `onChange(name, placeName)`;
otherwise, when mounted, clear loading and set the error flag. -/
def reverseThenScript (fieldName : String) (d : ResponseData) (s : CState) : List Action :=
  match responsePlaceName d with
  | some p =>
    if (p != "") && s.isMounted then
      [ .setIsGeocoding false,
        .setIsWithGeocodingError false,
        .onChange fieldName p ]
    else if s.isMounted then
      [ .setIsGeocoding false, .setIsWithGeocodingError true ]
    else []
  | none =>
    if s.isMounted then
      [ .setIsGeocoding false, .setIsWithGeocodingError true ]
    else []

/-- Failure continuation of the reverse geocode (lines 150-158). -/
def reverseCatchScript (s : CState) : List Action :=
  if s.isMounted then
    [ .setIsGeocoding false, .setIsWithGeocodingError true ]
  else []

/-- Synchronous body of the reverse geocode effect (lines 121-134): return
early while the map is dragging or zooming; otherwise set the loading flag
(only) and issue one GET for the reverse URL of the current viewport
center. -/
def reverseEffectScript (token : String) (isMapDraggingOrZooming : Bool) (vp : MapViewport) : List Action :=
  if isMapDraggingOrZooming then []
  else [ .setIsGeocoding true, .fetch (reverseUrl token vp) ]

/-- Callback passed to `setTimeout` in the banner timer effect (lines
175-177): clear the error flag, with no mount check. -/
def errorTimerScript : List Action :=
  [ .setIsWithGeocodingError false ]

/-- Banner timer effect body (lines 172-181): when the error flag is set,
schedule `errorTimerScript` after this many milliseconds. -/
def errorTimerDelayOf (s : CState) : Option Nat :=
  if s.isWithGeocodingError then some 5000 else none

/-- Unmount cleanup (lines 183-187): flip the mount ref to false. -/
def unmountCleanup (s : CState) : CState :=
  { s with isMounted := false }

/-- Callback values the rendered JSX wires to DOM events.  The component
passes the single function value `doGeocode` both to the button's `onClick`
(line 210) and to the text input's `onBlur` (line 232). -/
inductive Handler where
  | doGeocodeH
  deriving Repr, DecidableEq

/-- Script a handler runs when invoked. -/
def runHandler (token value : String) (geocodeHint geocodeBoundingBox : Option (List Int)) : Handler → List Action
  | .doGeocodeH => doGeocodeScript token value geocodeHint geocodeBoundingBox

/-- What the JSX (lines 189-259) renders for a given state. -/
structure RenderOutput where
  showsSpinner : Bool
  showsSearchButton : Bool
  buttonOnClick : Option Handler
  textInputShown : Bool
  textInputOnBlur : Handler
  textInputOnChangeWired : Bool
  errorBannerOpacity : Nat
  deriving Repr, DecidableEq

/-- Render function: the spinner is rendered iff `isGeocoding` (line 195), the
search button iff `!isGeocoding` (line 198) with `onClick` equal to
`doGeocode` (line 210); the text input is always rendered, never disabled,
with `onBlur` equal to `doGeocode` (line 232) and its `onChange` wired to the
parent callback (line 234); the banner's opacity is 1 iff the error flag is
set (line 238). -/
def render (s : CState) : RenderOutput :=
  { showsSpinner := s.isGeocoding
    showsSearchButton := !s.isGeocoding
    buttonOnClick := if s.isGeocoding then none else some Handler.doGeocodeH
    textInputShown := true
    textInputOnBlur := Handler.doGeocodeH
    textInputOnChangeWired := true
    errorBannerOpacity := if s.isWithGeocodingError then 1 else 0 }

/-- Asynchronous occurrences that can reach the component after its
synchronous bodies ran: a resolution or rejection of either pending request
kind, the banner timer firing, and the unmount cleanup. -/
inductive Event where
  | forwardResolve (d : ResponseData)
  | forwardReject
  | reverseResolve (fieldName : String) (d : ResponseData)
  | reverseReject
  | timerFire
  | unmount
  deriving Repr, DecidableEq

/-- Script an event's continuation runs against the current state. -/
def eventScript (s : CState) : Event → List Action
  | .forwardResolve d => forwardThenScript d s
  | .forwardReject => forwardCatchScript s
  | .reverseResolve n d => reverseThenScript n d s
  | .reverseReject => reverseCatchScript s
  | .timerFire => errorTimerScript
  | .unmount => []

/-- State transition of one event: unmount flips the ref, every other event
runs its continuation script. -/
def stepEvent (s : CState) (e : Event) : CState :=
  match e with
  | .unmount => unmountCleanup s
  | e => runActions (eventScript s e) s

/-- Run a sequence of events from a state. -/
def runEvents (s : CState) (es : List Event) : CState :=
  es.foldl stepEvent s

/-- Whether an event is the continuation of a pending forward- or
reverse-geocode request (as opposed to the timer or the teardown). -/
def isGeocodeContinuation : Event → Bool
  | .forwardResolve _ => true
  | .forwardReject => true
  | .reverseResolve _ _ => true
  | .reverseReject => true
  | .timerFire => false
  | .unmount => false

/-- Whether an event is the unmount teardown. -/
def isUnmountEvent : Event → Bool
  | .unmount => true
  | _ => false

/-- One run of the reverse-geocode effect per dependency change: the effect
re-runs for every update of `[mapViewport, isMapDraggingOrZooming]`
(line 160).  An update is the pair (drag/zoom flag, viewport). -/
def runUpdates (token : String) (updates : List (Bool × MapViewport)) : List Action :=
  match updates with
  | [] => []
  | u :: rest => reverseEffectScript token u.1 u.2 ++ runUpdates token rest

/-- Lookup completions driving the banner state machine in the timed model:
a response with an empty `features` array, a response with one valid feature,
or a rejected request. -/
inductive TEvent where
  | resolveNotFound
  | resolveFound
  | reject
  deriving Repr, DecidableEq

/-- A provider response whose `features` array is empty. -/
def emptyFeaturesData : ResponseData :=
  { features := some [] }

/-- A provider response with one feature carrying a geometry and a place
name. -/
def singleFeatureData : ResponseData :=
  { features := some
      [ { geometry := some { coordinates := [10, 20] },
          place_name := some ("somewhere") } ] }

/-- Apply a lookup completion to component state through the forward
continuation scripts. -/
def applyLookup : TEvent → CState → CState
  | .resolveNotFound, c => runActions (forwardThenScript emptyFeaturesData c) c
  | .resolveFound, c => runActions (forwardThenScript singleFeatureData c) c
  | .reject, c => runActions (forwardCatchScript c) c

/-- State of the timed model: component state plus the absolute fire times of
the `setTimeout` timers currently pending. -/
structure TimedState where
  comp : CState
  timers : List Nat
  deriving Repr, DecidableEq

/-- Timed model start: initial component state, no pending timer. -/
def initialTimed : TimedState :=
  { comp := initialState, timers := [] }

/-- Fire every timer due now: the timer callback (`errorTimerScript`) clears
the error flag, and the fired timer is removed. -/
def fireTimers (now : Nat) (st : TimedState) : TimedState :=
  if st.timers.any (fun x => x == now) then
    { comp := runActions errorTimerScript st.comp,
      timers := st.timers.filter (fun x => !(x == now)) }
  else st

/-- One millisecond of the timed model: apply the completion arriving now, if
any; when that flips the error flag from false to true the banner effect
(lines 172-181) schedules a clear 5000ms ahead; then fire the timers due
now. -/
def timedStep (now : Nat) (e : Option TEvent) (st : TimedState) : TimedState :=
  let stAfter :=
    match e with
    | none => st
    | some ev =>
      let oldErr := st.comp.isWithGeocodingError
      let comp1 := applyLookup ev st.comp
      let timers1 :=
        if comp1.isWithGeocodingError && !oldErr then st.timers ++ [now + 5000]
        else st.timers
      { comp := comp1, timers := timers1 }
  fireTimers now stAfter

/-- The completion scheduled at a given millisecond, if any. -/
def eventAt (es : List (Nat × TEvent)) (n : Nat) : Option TEvent :=
  match es.find? (fun p => p.1 == n) with
  | some p => some p.2
  | none => none

/-- State of the timed model after processing milliseconds 0 through `t`. -/
def runTimed (es : List (Nat × TEvent)) : Nat → TimedState
  | 0 => timedStep 0 (eventAt es 0) initialTimed
  | n + 1 => timedStep (n + 1) (eventAt es (n + 1)) (runTimed es n)

/-- Spec-side forward URL grammar, written from the spec's words:
`.../mapbox.places/(urlEncodedQuery).json?access_token=(token)` with an
optional `&proximity=(lng),(lat)` and an optional `&bbox=(w),(s),(e),(n)`. -/
def specForwardUrl (token query : String) (hint : Option (Int × Int)) (bbox : Option (Int × Int × Int × Int)) : String :=
  "https://api.mapbox.com/geocoding/v5/mapbox.places/" ++ encodeURIComponent query ++
    ".json?access_token=" ++ token ++
    (match hint with
     | some (lng, lat) => "&proximity=" ++ toString lng ++ "," ++ toString lat
     | none => "") ++
    (match bbox with
     | some (w, s, e, n) =>
       "&bbox=" ++ toString w ++ "," ++ toString s ++ "," ++ toString e ++ "," ++ toString n
     | none => "")

/-- Spec-side reverse URL grammar, written from the spec's words:
`.../mapbox.places/(lng),(lat).json?access_token=(token)`. -/
def specReverseUrl (token : String) (lng lat : Int) : String :=
  "https://api.mapbox.com/geocoding/v5/mapbox.places/" ++ toString lng ++ "," ++
    toString lat ++ ".json?access_token=" ++ token

/-! Helper lemmas shared by the claim theorems. -/

/-- No action touches the mount ref. -/
theorem applyAction_isMounted (s : CState) (a : Action) :
    (applyAction s a).isMounted = s.isMounted := by
  cases a <;> rfl

/-- Running a script never changes the mount ref. -/
theorem runActions_isMounted (acts : List Action) (s : CState) :
    (runActions acts s).isMounted = s.isMounted := by
  induction acts generalizing s with
  | nil => rfl
  | cons a rest ih =>
    simp only [runActions, List.foldl_cons] at *
    rw [ih, applyAction_isMounted]

/-- After unmount, the continuation of any pending geocode request runs no
action at all. -/
theorem cont_unmounted_empty (e : Event) (s : CState)
    (hc : isGeocodeContinuation e = true) (hm : s.isMounted = false) :
    eventScript s e = [] := by
  cases e with
  | forwardResolve d =>
    simp only [eventScript, forwardThenScript]
    cases responseGeometry d <;> simp [hm]
  | forwardReject => simp [eventScript, forwardCatchScript, hm]
  | reverseResolve n d =>
    simp only [eventScript, reverseThenScript]
    cases responsePlaceName d <;> simp [hm]
  | reverseReject => simp [eventScript, reverseCatchScript, hm]
  | timerFire => simp [isGeocodeContinuation] at hc
  | unmount => simp [isGeocodeContinuation] at hc

/-- After unmount, stepping a geocode continuation leaves the state
unchanged. -/
theorem stepEvent_unmounted_noop (e : Event) (s : CState)
    (hc : isGeocodeContinuation e = true) (hm : s.isMounted = false) :
    stepEvent s e = s := by
  have h := cont_unmounted_empty e s hc hm
  cases e <;> first
    | (show runActions (eventScript s _) s = s
       rw [h]
       rfl)
    | (simp [isGeocodeContinuation] at hc)

/-- Only the unmount event changes the mount ref, and it sets it to false. -/
theorem stepEvent_isMounted (s : CState) (e : Event) :
    (stepEvent s e).isMounted = (s.isMounted && !isUnmountEvent e) := by
  cases e with
  | unmount => simp [stepEvent, unmountCleanup, isUnmountEvent]
  | forwardResolve d => simp [stepEvent, runActions_isMounted, isUnmountEvent]
  | forwardReject => simp [stepEvent, runActions_isMounted, isUnmountEvent]
  | reverseResolve n d => simp [stepEvent, runActions_isMounted, isUnmountEvent]
  | reverseReject => simp [stepEvent, runActions_isMounted, isUnmountEvent]
  | timerFire => simp [stepEvent, runActions_isMounted, isUnmountEvent]

/-- Along any event sequence the mount ref is true exactly until the first
unmount event, and false from then on. -/
theorem runEvents_isMounted (es : List Event) (s : CState) :
    (runEvents s es).isMounted = (s.isMounted && !(es.any isUnmountEvent)) := by
  induction es generalizing s with
  | nil => simp [runEvents]
  | cons e rest ih =>
    simp only [runEvents, List.foldl_cons, List.any_cons] at *
    rw [ih, stepEvent_isMounted]
    cases h : isUnmountEvent e <;> simp

/-- Effect runs concatenate over split update sequences. -/
theorem runUpdates_append (token : String) (xs ys : List (Bool × MapViewport)) :
    runUpdates token (xs ++ ys) = runUpdates token xs ++ runUpdates token ys := by
  induction xs with
  | nil => simp [runUpdates]
  | cons u rest ih => simp [runUpdates, ih]

/-- While every update has the drag/zoom flag set, the effect runs no action
at all. -/
theorem runUpdates_all_dragging (token : String)
    (updates : List (Bool × MapViewport)) (h : ∀ u ∈ updates, u.1 = true) :
    runUpdates token updates = [] := by
  induction updates with
  | nil => rfl
  | cons u rest ih =>
    have hu : u.1 = true := h u (List.mem_cons_self u rest)
    have hr := ih fun v hv => h v (List.mem_cons_of_mem u hv)
    simp [runUpdates, reverseEffectScript, hu, hr]

/-- The forward success/not-found continuation never issues a request. -/
theorem requestsOf_forwardThenScript (d : ResponseData) (s : CState) :
    requestsOf (forwardThenScript d s) = [] := by
  cases hq : responseGeometry d with
  | none => cases hm : s.isMounted <;> simp [forwardThenScript, hq, hm, requestsOf]
  | some g => cases hm : s.isMounted <;> simp [forwardThenScript, hq, hm, requestsOf]

/-- The forward failure continuation never issues a request. -/
theorem requestsOf_forwardCatchScript (s : CState) :
    requestsOf (forwardCatchScript s) = [] := by
  cases hm : s.isMounted <;> simp [forwardCatchScript, hm, requestsOf]

/-- The reverse success/not-found continuation never issues a request. -/
theorem requestsOf_reverseThenScript (fieldName : String) (d : ResponseData)
    (s : CState) :
    requestsOf (reverseThenScript fieldName d s) = [] := by
  cases hq : responsePlaceName d with
  | none => cases hm : s.isMounted <;> simp [reverseThenScript, hq, hm, requestsOf]
  | some p =>
    cases hm : s.isMounted <;> cases hp : (p != "") <;>
      simp [reverseThenScript, hq, hm, hp, requestsOf]

/-- The reverse failure continuation never issues a request. -/
theorem requestsOf_reverseCatchScript (s : CState) :
    requestsOf (reverseCatchScript s) = [] := by
  cases hm : s.isMounted <;> simp [reverseCatchScript, hm, requestsOf]

/-- Unfolding one millisecond of the timed run. -/
theorem runTimed_succ (es : List (Nat × TEvent)) (n : Nat) :
    runTimed es (n + 1) = timedStep (n + 1) (eventAt es (n + 1)) (runTimed es n) :=
  rfl

/-- On a single-completion schedule, no completion arrives at other times. -/
theorem eventAt_single_ne (ev : TEvent) (t0 n : Nat) (h : t0 ≠ n) :
    eventAt [(t0, ev)] n = none := by
  have hb : ((t0, ev).1 == n) = false := by
    simp [h]
  simp [eventAt, List.find?_cons_of_neg, hb]

/-- On a single-completion schedule, the completion arrives at its time. -/
theorem eventAt_single_self (ev : TEvent) (t0 : Nat) :
    eventAt [(t0, ev)] t0 = some ev := by
  have hb : ((t0, ev).1 == t0) = true := by simp
  simp [eventAt, List.find?_cons_of_pos, hb]

/-- A millisecond with no completion and no due timer changes nothing. -/
theorem timedStep_quiet (now : Nat) (st : TimedState)
    (h : st.timers.any (fun x => x == now) = false) :
    timedStep now none st = st := by
  simp [timedStep, fireTimers, h]

/-- The not-found completion applied to the initial state sets the error flag
and schedules a clear 5000ms ahead. -/
theorem timedStep_notFound_initial (now : Nat) :
    timedStep now (some TEvent.resolveNotFound) initialTimed =
      ⟨⟨false, true, true⟩, [now + 5000]⟩ := by
  have h5 : ((now + 5000 : Nat) == now) = false := by
    simp only [beq_eq_false_iff_ne]
    omega
  simp [timedStep, applyLookup, forwardThenScript, responseGeometry,
    emptyFeaturesData, initialTimed, initialState, runActions, applyAction,
    fireTimers, h5]

/-- Before the completion arrives nothing has happened in the timed run. -/
theorem runTimed_single_before (ev : TEvent) (t0 : Nat) :
    ∀ t, t < t0 → runTimed [(t0, ev)] t = initialTimed := by
  intro t
  induction t with
  | zero =>
    intro h
    have he := eventAt_single_ne ev t0 0 (by omega)
    show timedStep 0 (eventAt [(t0, ev)] 0) initialTimed = initialTimed
    rw [he]
    exact timedStep_quiet 0 initialTimed (by simp [initialTimed])
  | succ n ih =>
    intro h
    have he := eventAt_single_ne ev t0 (n + 1) (by omega)
    rw [runTimed_succ, he, ih (by omega)]
    exact timedStep_quiet (n + 1) initialTimed (by simp [initialTimed])

/-- At its arrival millisecond, the single not-found completion has set the
error flag and a clear is pending 5000ms ahead. -/
theorem runTimed_single_at (t0 : Nat) :
    runTimed [(t0, TEvent.resolveNotFound)] t0 = ⟨⟨false, true, true⟩, [t0 + 5000]⟩ := by
  cases t0 with
  | zero =>
    show timedStep 0 (eventAt [(0, TEvent.resolveNotFound)] 0) initialTimed = _
    rw [eventAt_single_self]
    exact timedStep_notFound_initial 0
  | succ n =>
    rw [runTimed_succ, eventAt_single_self,
      runTimed_single_before TEvent.resolveNotFound (n + 1) n (by omega)]
    exact timedStep_notFound_initial (n + 1)

/-- Throughout the 5000ms window the error flag stays set and the clear stays
pending. -/
theorem runTimed_single_mid (t0 : Nat) :
    ∀ k, k < 5000 → runTimed [(t0, TEvent.resolveNotFound)] (t0 + k) =
      ⟨⟨false, true, true⟩, [t0 + 5000]⟩ := by
  intro k
  induction k with
  | zero => intro _; simpa using runTimed_single_at t0
  | succ m ih =>
    intro h
    have h1 : runTimed [(t0, TEvent.resolveNotFound)] (t0 + (m + 1)) =
        timedStep (t0 + (m + 1)) (eventAt [(t0, TEvent.resolveNotFound)] (t0 + (m + 1)))
          (runTimed [(t0, TEvent.resolveNotFound)] (t0 + m)) := rfl
    rw [h1, eventAt_single_ne TEvent.resolveNotFound t0 (t0 + (m + 1)) (by omega),
      ih (by omega)]
    apply timedStep_quiet
    simp only [List.any_cons, List.any_nil, Bool.or_false, beq_eq_false_iff_ne]
    omega

/-- At exactly 5000ms after the completion the pending clear fires: the error
flag drops and no timer remains. -/
theorem runTimed_single_clear (t0 : Nat) :
    runTimed [(t0, TEvent.resolveNotFound)] (t0 + 5000) = ⟨⟨false, false, true⟩, []⟩ := by
  have h1 : runTimed [(t0, TEvent.resolveNotFound)] (t0 + 5000) =
      timedStep (t0 + 5000) (eventAt [(t0, TEvent.resolveNotFound)] (t0 + 5000))
        (runTimed [(t0, TEvent.resolveNotFound)] (t0 + 4999)) := by
    rw [show t0 + 5000 = (t0 + 4999) + 1 by omega]
    rfl
  rw [h1, eventAt_single_ne TEvent.resolveNotFound t0 (t0 + 5000) (by omega),
    runTimed_single_mid t0 4999 (by omega)]
  simp [timedStep, fireTimers, runActions, applyAction, errorTimerScript]

/-! Claim theorems. -/

/-- C1: every pending forward- or reverse-geocode continuation that runs after
the unmount signal mutates neither the loading flag nor the error flag (it
runs no action and is a no-op on state); the mount flag starts true, and along
any event sequence it is false exactly when an unmount occurred, so it flips
to false exactly once at teardown and never flips back. -/
theorem claim1_mount_guard (e : Event) (s : CState) (es : List Event)
    (hc : isGeocodeContinuation e = true) (hm : s.isMounted = false) :
    (eventScript s e = [] ∧ stepEvent s e = s) ∧
    initialState.isMounted = true ∧
    (runEvents initialState es).isMounted = !(es.any isUnmountEvent) := by
  refine ⟨⟨cont_unmounted_empty e s hc hm, stepEvent_unmounted_noop e s hc hm⟩, rfl, ?_⟩
  rw [runEvents_isMounted]
  simp [initialState]

/-- Witness for C1 at a concrete unmounted state, the forward failure
continuation, and an event sequence containing the teardown. -/
theorem claim1_mount_guard_witness :
    (eventScript ⟨true, false, false⟩ Event.forwardReject = [] ∧
      stepEvent ⟨true, false, false⟩ Event.forwardReject = ⟨true, false, false⟩) ∧
    initialState.isMounted = true ∧
    (runEvents initialState [Event.unmount, Event.timerFire]).isMounted =
      !([Event.unmount, Event.timerFire].any isUnmountEvent) :=
  claim1_mount_guard Event.forwardReject ⟨true, false, false⟩
    [Event.unmount, Event.timerFire] (by decide) (by decide)

/-- C3: when a forward-geocode response carries a valid first feature and the
component is still mounted, the continuation emits exactly one
`setMapViewport` event whose latitude is the feature's second geometry
coordinate and whose longitude is its first, unmodified, with zoom 14 and
transition duration 1000. -/
theorem claim3_forward_success_emits_once (d : ResponseData) (s : CState)
    (g : Geometry) (lng lat : Int) (rest : List Int)
    (hg : responseGeometry d = some g)
    (hco : g.coordinates = lng :: lat :: rest)
    (hm : s.isMounted = true) :
    emitsOf (forwardThenScript d s) =
      [{ latitude := some lat, longitude := some lng, zoom := 14,
         transitionDuration := 1000 }] := by
  simp [forwardThenScript, hg, hm, emitsOf, hco]

/-- Witness for C3 on a concrete single-feature response. -/
theorem claim3_forward_success_emits_once_witness :
    emitsOf (forwardThenScript singleFeatureData initialState) =
      [{ latitude := some 20, longitude := some 10, zoom := 14,
         transitionDuration := 1000 }] :=
  claim3_forward_success_emits_once singleFeatureData initialState
    { coordinates := [10, 20] } 10 20 [] (by decide) (by decide) (by decide)

/-- C5: the 5000ms banner timer callback clears the error flag unconditionally
(for every state, mounted or not), so at an unmounted state with the error
flag set the timer event really changes state; by contrast every geocode
continuation is gated by the mount flag and is a no-op there. -/
theorem claim5_timer_skips_mount_guard (s : CState)
    (hm : s.isMounted = false) (he : s.isWithGeocodingError = true) :
    (∀ s' : CState, (runActions errorTimerScript s').isWithGeocodingError = false) ∧
    stepEvent s Event.timerFire ≠ s ∧
    (∀ e, isGeocodeContinuation e = true → stepEvent s e = s) := by
  refine ⟨fun s' => rfl, ?_, fun e hc => stepEvent_unmounted_noop e s hc hm⟩
  intro h
  have h2 : ({ s with isWithGeocodingError := false } : CState) = s := h
  have h3 := congrArg CState.isWithGeocodingError h2
  rw [he] at h3
  simp at h3

/-- Witness for C5 at a concrete unmounted state with the error flag set. -/
theorem claim5_timer_skips_mount_guard_witness :
    (∀ s' : CState, (runActions errorTimerScript s').isWithGeocodingError = false) ∧
    stepEvent ⟨false, true, false⟩ Event.timerFire ≠ ⟨false, true, false⟩ ∧
    (∀ e, isGeocodeContinuation e = true →
      stepEvent ⟨false, true, false⟩ e = ⟨false, true, false⟩) :=
  claim5_timer_skips_mount_guard ⟨false, true, false⟩ (by decide) (by decide)

/-- C6: while mounted, a forward not-found result runs exactly the same script
as a forward network failure, a reverse not-found result runs exactly the same
script as a reverse failure, and the reverse failure script equals the forward
one; the common script sets loading false and the error flag true, issues no
further request, and the input stays rendered and wired to the parent
callback. -/
theorem claim6_failures_collapse (s : CState) (d d2 : ResponseData)
    (fieldName : String) (hm : s.isMounted = true)
    (hg : responseGeometry d = none)
    (hp : strTruthy (responsePlaceName d2) = false) :
    forwardThenScript d s = forwardCatchScript s ∧
    reverseThenScript fieldName d2 s = reverseCatchScript s ∧
    reverseCatchScript s = forwardCatchScript s ∧
    runActions (forwardCatchScript s) s =
      { s with isGeocoding := false, isWithGeocodingError := true } ∧
    requestsOf (forwardCatchScript s) = [] ∧
    (render (runActions (forwardCatchScript s) s)).textInputShown = true ∧
    (render (runActions (forwardCatchScript s) s)).textInputOnChangeWired = true := by
  refine ⟨?_, ?_, ?_, ?_, ?_, ?_, ?_⟩
  · simp [forwardThenScript, forwardCatchScript, hg, hm]
  · cases hq : responsePlaceName d2 with
    | none => simp [reverseThenScript, reverseCatchScript, hq, hm]
    | some p =>
      rw [hq] at hp
      simp only [strTruthy] at hp
      simp [reverseThenScript, reverseCatchScript, hq, hm, hp]
  · simp [reverseCatchScript, forwardCatchScript]
  · simp [forwardCatchScript, hm, runActions, applyAction]
  · simp [forwardCatchScript, hm, requestsOf]
  · simp [render]
  · simp [render]

/-- Witness for C6 on a concrete empty-features response and a concrete
response with no `features` key. -/
theorem claim6_failures_collapse_witness :
    forwardThenScript emptyFeaturesData initialState = forwardCatchScript initialState ∧
    reverseThenScript ("location") { features := none } initialState =
      reverseCatchScript initialState ∧
    reverseCatchScript initialState = forwardCatchScript initialState ∧
    runActions (forwardCatchScript initialState) initialState =
      { initialState with isGeocoding := false, isWithGeocodingError := true } ∧
    requestsOf (forwardCatchScript initialState) = [] ∧
    (render (runActions (forwardCatchScript initialState) initialState)).textInputShown = true ∧
    (render (runActions (forwardCatchScript initialState) initialState)).textInputOnChangeWired = true :=
  claim6_failures_collapse initialState emptyFeaturesData { features := none }
    ("location") (by decide) (by decide) (by decide)

/-- C7: whenever the search trigger is rendered, its `onClick` is the very
handler the text input's `onBlur` carries, and invoking that handler runs the
forward-geocode script, so click and blur produce the same request shape and
the same state transitions for the same input value. -/
theorem claim7_click_blur_identical (s : CState) (token value : String)
    (geocodeHint geocodeBoundingBox : Option (List Int))
    (h : s.isGeocoding = false) :
    (render s).buttonOnClick = some ((render s).textInputOnBlur) ∧
    runHandler token value geocodeHint geocodeBoundingBox ((render s).textInputOnBlur) =
      doGeocodeScript token value geocodeHint geocodeBoundingBox := by
  simp [render, h, runHandler]

/-- Witness for C7 at the initial state and a concrete query. -/
theorem claim7_click_blur_identical_witness :
    (render initialState).buttonOnClick = some ((render initialState).textInputOnBlur) ∧
    runHandler ("tok") ("123 Main St") none none ((render initialState).textInputOnBlur) =
      doGeocodeScript ("tok") ("123 Main St") none none :=
  claim7_click_blur_identical initialState ("tok") ("123 Main St") none none (by decide)

/-- C9: in every rendered state the spinner is shown exactly when the loading
flag is true and the search trigger exactly when it is false, so the two are
never displayed simultaneously. -/
theorem claim9_spinner_button_exclusive (s : CState) :
    (render s).showsSpinner = s.isGeocoding ∧
    (render s).showsSearchButton = (!s.isGeocoding) ∧
    ((render s).showsSpinner && (render s).showsSearchButton) = false := by
  refine ⟨rfl, rfl, ?_⟩
  simp [render]

/-- Witness for C9 at a concrete loading state. -/
theorem claim9_spinner_button_exclusive_witness :
    (render ⟨true, false, true⟩).showsSpinner = (true : Bool) ∧
    (render ⟨true, false, true⟩).showsSearchButton = (!(true : Bool)) ∧
    ((render ⟨true, false, true⟩).showsSpinner &&
      (render ⟨true, false, true⟩).showsSearchButton) = false :=
  claim9_spinner_button_exclusive ⟨true, false, true⟩

/-- C10: the forward-geocode script sets the loading flag true and clears the
error flag before its HTTP request is issued (so a visible banner is hidden as
soon as the lookup starts), while the reverse-geocode script sets only the
loading flag before its request and leaves the error flag untouched. -/
theorem claim10_start_sequencing (s : CState) (token value : String)
    (geocodeHint geocodeBoundingBox : Option (List Int)) (vp : MapViewport) :
    runActions (prefixBeforeFetch (doGeocodeScript token value geocodeHint geocodeBoundingBox)) s =
      { s with isGeocoding := true, isWithGeocodingError := false } ∧
    (render (runActions (prefixBeforeFetch (doGeocodeScript token value geocodeHint geocodeBoundingBox)) s)).errorBannerOpacity = 0 ∧
    requestsOf (doGeocodeScript token value geocodeHint geocodeBoundingBox) =
      [forwardUrl token value geocodeHint geocodeBoundingBox] ∧
    runActions (prefixBeforeFetch (reverseEffectScript token false vp)) s =
      { s with isGeocoding := true } ∧
    (runActions (prefixBeforeFetch (reverseEffectScript token false vp)) s).isWithGeocodingError =
      s.isWithGeocodingError ∧
    requestsOf (reverseEffectScript token false vp) = [reverseUrl token vp] := by
  refine ⟨rfl, ?_, rfl, rfl, rfl, rfl⟩
  simp [render, prefixBeforeFetch, doGeocodeScript, isFetch, runActions, applyAction,
    List.takeWhile]

/-- Witness for C10 at a concrete state with the error banner visible. -/
theorem claim10_start_sequencing_witness :
    runActions (prefixBeforeFetch (doGeocodeScript ("tok") ("q") none none)) ⟨false, true, true⟩ =
      { (⟨false, true, true⟩ : CState) with isGeocoding := true, isWithGeocodingError := false } ∧
    (render (runActions (prefixBeforeFetch (doGeocodeScript ("tok") ("q") none none)) ⟨false, true, true⟩)).errorBannerOpacity = 0 ∧
    requestsOf (doGeocodeScript ("tok") ("q") none none) = [forwardUrl ("tok") ("q") none none] ∧
    runActions (prefixBeforeFetch (reverseEffectScript ("tok") false ⟨3, 4⟩)) ⟨false, true, true⟩ =
      { (⟨false, true, true⟩ : CState) with isGeocoding := true } ∧
    (runActions (prefixBeforeFetch (reverseEffectScript ("tok") false ⟨3, 4⟩)) ⟨false, true, true⟩).isWithGeocodingError =
      (⟨false, true, true⟩ : CState).isWithGeocodingError ∧
    requestsOf (reverseEffectScript ("tok") false ⟨3, 4⟩) = [reverseUrl ("tok") ⟨3, 4⟩] :=
  claim10_start_sequencing ⟨false, true, true⟩ ("tok") ("q") none none ⟨3, 4⟩

/-- C2: while the drag/zoom flag is true no reverse-geocode request is issued
no matter how many viewport updates occur, and the first update after the flag
becomes false issues exactly one request, for the latest viewport center. -/
theorem claim2_settle_gate (token : String)
    (updates dragUpdates : List (Bool × MapViewport)) (vp : MapViewport)
    (hall : ∀ u ∈ updates, u.1 = true)
    (hdrag : ∀ u ∈ dragUpdates, u.1 = true) :
    requestsOf (runUpdates token updates) = [] ∧
    requestsOf (runUpdates token (dragUpdates ++ [(false, vp)])) =
      [reverseUrl token vp] := by
  constructor
  · rw [runUpdates_all_dragging token updates hall]
    rfl
  · rw [runUpdates_append, runUpdates_all_dragging token dragUpdates hdrag]
    simp [runUpdates, reverseEffectScript, requestsOf]

/-- Witness for C2 on concrete dragging updates followed by a settle. -/
theorem claim2_settle_gate_witness :
    requestsOf (runUpdates ("tok") [(true, ⟨1, 2⟩), (true, ⟨3, 4⟩)]) = [] ∧
    requestsOf (runUpdates ("tok") ([(true, ⟨5, 6⟩)] ++ [(false, ⟨7, 8⟩)])) =
      [reverseUrl ("tok") ⟨7, 8⟩] :=
  claim2_settle_gate ("tok") [(true, ⟨1, 2⟩), (true, ⟨3, 4⟩)] [(true, ⟨5, 6⟩)]
    ⟨7, 8⟩ (by decide) (by decide)

/-- C8: the forward URL follows the spec grammar — places endpoint,
URL-encoded query, access token, a proximity parameter exactly when a hint is
configured and a bbox parameter exactly when a bounding box is configured —
the reverse URL is longitude,latitude with the token only, each direction
issues a single GET, and no continuation issues a further request. -/
theorem claim8_request_shapes (token query : String) (hlng hlat bw bs be bn : Int)
    (geocodeHint geocodeBoundingBox : Option (List Int)) (vp : MapViewport)
    (st : CState) (d : ResponseData) (fieldName : String) :
    forwardUrl token query none none = specForwardUrl token query none none ∧
    forwardUrl token query (some [hlng, hlat]) none =
      specForwardUrl token query (some (hlng, hlat)) none ∧
    forwardUrl token query none (some [bw, bs, be, bn]) =
      specForwardUrl token query none (some (bw, bs, be, bn)) ∧
    forwardUrl token query (some [hlng, hlat]) (some [bw, bs, be, bn]) =
      specForwardUrl token query (some (hlng, hlat)) (some (bw, bs, be, bn)) ∧
    reverseUrl token vp = specReverseUrl token vp.longitude vp.latitude ∧
    requestsOf (doGeocodeScript token query geocodeHint geocodeBoundingBox) =
      [forwardUrl token query geocodeHint geocodeBoundingBox] ∧
    requestsOf (reverseEffectScript token false vp) = [reverseUrl token vp] ∧
    requestsOf (forwardThenScript d st) = [] ∧
    requestsOf (forwardCatchScript st) = [] ∧
    requestsOf (reverseThenScript fieldName d st) = [] ∧
    requestsOf (reverseCatchScript st) = [] := by
  refine ⟨?_, ?_, ?_, ?_, rfl, rfl, rfl,
    requestsOf_forwardThenScript d st, requestsOf_forwardCatchScript st,
    requestsOf_reverseThenScript fieldName d st, requestsOf_reverseCatchScript st⟩
  · rfl
  · simp [forwardUrl, specForwardUrl, joinComma, String.append_assoc]
  · simp [forwardUrl, specForwardUrl, joinComma, String.append_assoc]
  · simp [forwardUrl, specForwardUrl, joinComma, String.append_assoc]

/-- Witness for C8 at concrete configuration values. -/
theorem claim8_request_shapes_witness :
    forwardUrl ("tok") ("123 Main St") none none = specForwardUrl ("tok") ("123 Main St") none none ∧
    forwardUrl ("tok") ("123 Main St") (some [1, 2]) none =
      specForwardUrl ("tok") ("123 Main St") (some (1, 2)) none ∧
    forwardUrl ("tok") ("123 Main St") none (some [3, 4, 5, 6]) =
      specForwardUrl ("tok") ("123 Main St") none (some (3, 4, 5, 6)) ∧
    forwardUrl ("tok") ("123 Main St") (some [1, 2]) (some [3, 4, 5, 6]) =
      specForwardUrl ("tok") ("123 Main St") (some (1, 2)) (some (3, 4, 5, 6)) ∧
    reverseUrl ("tok") ⟨7, 8⟩ = specReverseUrl ("tok") (MapViewport.mk 7 8).longitude (MapViewport.mk 7 8).latitude ∧
    requestsOf (doGeocodeScript ("tok") ("123 Main St") (some [1, 2]) none) =
      [forwardUrl ("tok") ("123 Main St") (some [1, 2]) none] ∧
    requestsOf (reverseEffectScript ("tok") false ⟨7, 8⟩) = [reverseUrl ("tok") ⟨7, 8⟩] ∧
    requestsOf (forwardThenScript emptyFeaturesData initialState) = [] ∧
    requestsOf (forwardCatchScript initialState) = [] ∧
    requestsOf (reverseThenScript ("location") emptyFeaturesData initialState) = [] ∧
    requestsOf (reverseCatchScript initialState) = [] :=
  claim8_request_shapes ("tok") ("123 Main St") 1 2 3 4 5 6 (some [1, 2]) none
    ⟨7, 8⟩ initialState emptyFeaturesData ("location")

/-- C4: the error flag goes from hidden to visible on a lookup failure or a
not-found result while mounted; on the simulated clock a not-found completing
at `t0` keeps the banner visible through the whole 5000ms window and hides it
at exactly `t0 + 5000`; and a new successful lookup hides it immediately. -/
theorem claim4_error_banner_timing (t0 k : Nat) (s s2 : CState)
    (d dg : ResponseData)
    (hm : s.isMounted = true)
    (hg : responseGeometry d = none)
    (hk : k < 5000)
    (hm2 : s2.isMounted = true)
    (hgeom : (responseGeometry dg).isSome = true) :
    (runActions (forwardThenScript d s) s).isWithGeocodingError = true ∧
    (runActions (forwardCatchScript s) s).isWithGeocodingError = true ∧
    (runActions (reverseCatchScript s) s).isWithGeocodingError = true ∧
    (runTimed [(t0, TEvent.resolveNotFound)] (t0 + k)).comp.isWithGeocodingError = true ∧
    (runTimed [(t0, TEvent.resolveNotFound)] (t0 + 5000)).comp.isWithGeocodingError = false ∧
    (runActions (forwardThenScript dg s2) s2).isWithGeocodingError = false := by
  refine ⟨?_, ?_, ?_, ?_, ?_, ?_⟩
  · simp [forwardThenScript, hg, hm, runActions, applyAction]
  · simp [forwardCatchScript, hm, runActions, applyAction]
  · simp [reverseCatchScript, hm, runActions, applyAction]
  · rw [runTimed_single_mid t0 k hk]
  · rw [runTimed_single_clear t0]
  · obtain ⟨g, hg2⟩ := Option.isSome_iff_exists.mp hgeom
    simp [forwardThenScript, hg2, hm2, runActions, applyAction]

/-- Witness for C4 at a concrete arrival time, an in-window offset, an
empty-features response, and a single-feature response applied to a state
whose banner is visible. -/
theorem claim4_error_banner_timing_witness :
    (runActions (forwardThenScript emptyFeaturesData initialState) initialState).isWithGeocodingError = true ∧
    (runActions (forwardCatchScript initialState) initialState).isWithGeocodingError = true ∧
    (runActions (reverseCatchScript initialState) initialState).isWithGeocodingError = true ∧
    (runTimed [(2, TEvent.resolveNotFound)] (2 + 3)).comp.isWithGeocodingError = true ∧
    (runTimed [(2, TEvent.resolveNotFound)] (2 + 5000)).comp.isWithGeocodingError = false ∧
    (runActions (forwardThenScript singleFeatureData ⟨true, true, true⟩) ⟨true, true, true⟩).isWithGeocodingError = false :=
  claim4_error_banner_timing 2 3 initialState ⟨true, true, true⟩
    emptyFeaturesData singleFeatureData rfl rfl (by decide) rfl rfl

end GeocodingField
